import Mathlib

/-!
Shallow embedding of `src/matplotkit/taylor.py` (class `TaylorDiagram`).

The Python code builds a Taylor diagram: it converts (Pearson correlation,
standard deviation) statistics of a reference series and several sample
series into polar coordinates, sets up a curvilinear quarter-disk frame
with a nonlinear correlation axis and a linear standard-deviation axis,
draws an RMS-difference contour field, and plots one labeled point per
series.  Floating-point numbers are modelled as real numbers; the
matplotlib drawing surface is modelled as a trace of drawing events; the
only runtime failure point of the construction (Python `max([])` raising
`ValueError` in `plot_sample`) is modelled with `Except`.
-/

namespace Matplotkit

noncomputable section

/-- A named data series (`pandas.Series`): a name plus an ordered list of
numbers.  The reference and every sample column are values of this type. -/
structure Series where
  name : String
  data : List ℝ

/-- A rendered diagram point: label, polar coordinates and style, as produced
by `self.ax.plot(...)` followed by `p.set_label(...)` in the Python code. -/
structure Point where
  label : String
  theta : ℝ
  r : ℝ
  marker : String
  color : String

/-- Drawing actions issued to the matplotlib canvas, in order.  `axisFrame`
is the floating-axes frame set up at the start of `step_up`; `refArc` is the
dashed reference-std arc (`self.ax.plot(t, r, "k--")`); `contourPlot` is the
RMS contour call together with its inline labels; `plotPoint l` is one call
of `self.ax.plot(...)` for the point labeled `l`; `setXlim` is the final
`self.ax.set_xlim(xmax=...)` in `plot_sample`. -/
inductive Event where
  | axisFrame : Event
  | refArc : Event
  | contourPlot : Event
  | plotPoint : String → Event
  | setXlim : Event
deriving DecidableEq

/-- Constructor arguments of `TaylorDiagram.__init__` other than the data:
`Normalize`, `markers`, `colors`, `scale`, `ms` (`pkwargs` is forwarded
verbatim to matplotlib and carries no logic, so it is not modelled). -/
structure Config where
  Normalize : Bool
  markers : List String
  colors : List String
  scale : ℝ
  ms : ℝ

/-- Default marker list: `["o", "o", "s", "v", "o", "s", "v"] * 100`
(Python list repetition; 700 entries). -/
def defaultMarkers : List String :=
  (List.replicate 100 ["o", "o", "s", "v", "o", "s", "v"]).flatten

/-- Default color list (12 entries). -/
def defaultColors : List String :=
  ["tab:blue", "tab:red", "tab:red", "tab:red", "tab:green", "tab:green",
   "tab:green", "#1abc9c", "#2ecc71", "#3498db", "#9b59b6", "#34495e"]

/-- The defaults of `TaylorDiagram.__init__`: `Normalize=False`,
`markers=None` and `colors=None` (resolved to the default palettes, as
`markers if markers else [...]` does), `scale=1.2`, `ms=10`. -/
def defaultConfig : Config :=
  { Normalize := false
    markers := defaultMarkers
    colors := defaultColors
    scale := 1.2
    ms := 10 }

/-- Arithmetic mean of a list. -/
def mean (xs : List ℝ) : ℝ := xs.sum / xs.length

/-- Sample standard deviation, `pandas.Series.std()` with `ddof = 1`,
`sqrt (Σ (x - mean)^2 / (n - 1))`.  (For `n ≤ 1` pandas returns NaN; here
Lean total division yields a junk real instead, and no claim depends on
that value.) -/
def std (xs : List ℝ) : ℝ :=
  Real.sqrt (((xs.map (fun x => (x - mean xs) ^ 2)).sum) / ((xs.length : ℝ) - 1))

/-- Pearson correlation, `x.corr(other=y, method="pearson")`.  With the default integer index,
pandas aligns the two series position by position and computes the Pearson
coefficient over the overlapping pairs, which is exactly `List.zip`:
`Σ dx·dy / (sqrt (Σ dx²) · sqrt (Σ dy²))` over the zipped pairs. -/
def pearson (x y : List ℝ) : ℝ :=
  let p := x.zip y
  let mx := mean (p.map Prod.fst)
  let my := mean (p.map Prod.snd)
  ((p.map (fun q => (q.1 - mx) * (q.2 - my))).sum) /
    (Real.sqrt ((p.map (fun q => (q.1 - mx) ^ 2)).sum) *
      Real.sqrt ((p.map (fun q => (q.2 - my) ^ 2)).sum))

/-- Python's built-in `max` on a list of floats: raises `ValueError` on an
empty list, otherwise folds the binary maximum over the elements. -/
def pymax : List ℝ → Except String ℝ
  | [] => .error "max() arg is an empty sequence"
  | x :: xs => .ok (xs.foldl max x)

/-- Total variant of `pymax`, used where the Python code applies `max` to a
list that is statically nonempty (in `step_up` the list always ends with the
reference's std); the `[]` branch is unreachable there. -/
def pymaxD : List ℝ → ℝ
  | [] => 0
  | x :: xs => xs.foldl max x

/-- Method `TaylorDiagram.calc_loc(x, y)` (lines 76–82): `R = x.corr(y)`,
`theta = arccos R`, `r = y.std()`, returning
`(theta, r / self._refstd if self.Normalize else r)`.  `refstd` stands for
`self._refstd`, which `step_up` sets to `self.ref.std()`. -/
def calc_loc (refstd : ℝ) (Normalize : Bool) (x y : List ℝ) : ℝ × ℝ :=
  let R := pearson x y
  let theta := Real.arccos R
  let r := std y
  (theta, if Normalize then r / refstd else r)

/-- The fixed correlation tick levels of `step_up` (line 91):
`Rlocs = np.array([0, 0.2, 0.4, 0.6, 0.7, 0.8, 0.9, 0.95, 0.99, 1])`. -/
def Rlocs : List ℝ := [0, 0.2, 0.4, 0.6, 0.7, 0.8, 0.9, 0.95, 0.99, 1]

/-- Angular tick positions, `Tlocs = np.arccos(Rlocs)` (line 92): angular tick positions. -/
def Tlocs : List ℝ := Rlocs.map Real.arccos

/-- Numpy `np.linspace a b n`: `n` evenly spaced values from `a` to `b`
inclusive, `a + i·(b-a)/(n-1)`. -/
def linspace (a b : ℝ) (n : ℕ) : List ℝ :=
  (List.range n).map (fun i : ℕ => a + (i : ℝ) * (b - a) / ((n : ℝ) - 1))

/-- The RMS-difference field of `step_up` (line 153) at one node:
`rms = (refstd² + r² − 2·refstd·r·cos t) ** 0.5` (law of cosines). -/
def rmsField (refstd t r : ℝ) : ℝ :=
  Real.sqrt (refstd ^ 2 + r ^ 2 - 2 * refstd * r * Real.cos t)

/-- Angular grid nodes of the RMS mesh: `np.linspace(0, np.pi/2, 100)`
(line 151). -/
def rmsGridT : List ℝ := linspace 0 (Real.pi / 2) 100

/-- Radial grid nodes of the RMS mesh: `np.linspace(0, self.Smax, 100)`
(line 151). -/
def rmsGridR (Smax : ℝ) : List ℝ := linspace 0 Smax 100

/-- Python `zip` of three lists: truncates to the shortest. -/
def zip3 {α β γ : Type} : List α → List β → List γ → List (α × β × γ)
  | a :: as, b :: bs, c :: cs => (a, b, c) :: zip3 as bs cs
  | _, _, _ => []

/-- The state a `TaylorDiagram` instance has built up: the grid quantities
computed in `step_up`, the ordered point list `self.points`, the trace of
drawing actions, and the final x-limit set by `plot_sample`.

`tf1` models the angular `DictFormatter` of line 95,
`dict(zip(Tlocs, map(str, Rlocs)))`: each pair holds a tick angle together
with the correlation value whose decimal rendering (`str`) is the label
text.  `tf2` models the radial `DictFormatter` of line 105,
`dict(zip(Slocs, map(lambda i: "%.1f" % i, Slocs)))`: each pair holds a
radial tick together with the value rendered to one decimal place as its
label. -/
structure Diagram where
  ThetaTicks : List ℝ
  tf1 : List (ℝ × ℝ)
  Slocs : List ℝ
  tf2 : List (ℝ × ℝ)
  refstdRaw : ℝ
  stdmax : ℝ
  Smax : ℝ
  refstd : ℝ
  contourLevels : Option (List ℝ)
  points : List Point
  events : List Event
  xmax : ℝ

/-- Method `TaylorDiagram.step_up` (lines 84–177), drawing-library calls recorded
as events.  Computes, in source order: the angular tick positions and
formatter; `self._refstd = self.ref.std()`;
`self.stdmax = max([std(col) for col in samples] + [self._refstd])`;
`self.Smax = (1 if self.Normalize else self.stdmax) * self.scale`;
`self.refstd = 1 if self.Normalize else self._refstd`;
`Slocs = np.linspace(0, self.Smax, 4)` and its formatter; the floating-axes
frame; the dashed reference-std arc; the RMS contour plot with
`levels = np.linspace(0, self.scale, 4) if self.Normalize else 4` (the
`else` branch lets matplotlib choose 4 automatic levels, modelled as
`none`); and finally the reference point at `(0, self.refstd)` with
`markers[0]`, `colors[0]`, labeled with the reference's name. -/
def step_up (ref : Series) (samples : List Series) (cfg : Config) : Diagram :=
  let tlocs := Tlocs
  let tf1 := tlocs.zip Rlocs
  let refstdRaw := std ref.data
  let stdmax := pymaxD ((samples.map (fun s => std s.data)) ++ [refstdRaw])
  let Smax := (if cfg.Normalize then 1 else stdmax) * cfg.scale
  let refstd := if cfg.Normalize then 1 else refstdRaw
  let Slocs := linspace 0 Smax 4
  let tf2 := Slocs.zip Slocs
  let levels := if cfg.Normalize then some (linspace 0 cfg.scale 4) else none
  let refPt : Point :=
    { label := ref.name
      theta := 0
      r := refstd
      marker := cfg.markers.getD 0 ""
      color := cfg.colors.getD 0 "" }
  { ThetaTicks := tlocs
    tf1 := tf1
    Slocs := Slocs
    tf2 := tf2
    refstdRaw := refstdRaw
    stdmax := stdmax
    Smax := Smax
    refstd := refstd
    contourLevels := levels
    points := [refPt]
    events := [.axisFrame, .refArc, .contourPlot, .plotPoint ref.name]
    xmax := 0 }

/-- The sample points built by the loop of `plot_sample` (lines 181–197):
`for col, marker, color in zip(self.samples.columns, self.markers[1:],
self.colors[1:])`, each point at `calc_loc(self.ref, self.samples[col])`
with label `col`.  Python `zip` truncates to the shortest sequence.
`mkSamplePoint` is one loop iteration: it plots the point for column `q.1`
at `calc_loc(self.ref, self.samples[col])` with the zipped marker and
color, labeled with the column name. -/
def mkSamplePoint (refstdRaw : ℝ) (Normalize : Bool) (ref : Series)
    (q : Series × String × String) : Point :=
  let loc := calc_loc refstdRaw Normalize ref.data q.1.data
  { label := q.1.name
    theta := loc.1
    r := loc.2
    marker := q.2.1
    color := q.2.2 }

def samplePoints (refstdRaw : ℝ) (Normalize : Bool) (ref : Series)
    (samples : List Series) (markers colors : List String) : List Point :=
  (zip3 samples (markers.drop 1) (colors.drop 1)).map
    (mkSamplePoint refstdRaw Normalize ref)

/-- Method `TaylorDiagram.plot_sample` (lines 179–198): plots the zipped sample
points, appending each to `self.points` and its radius to `stds`, then
calls `self.ax.set_xlim(xmax=max(stds))`.  When `stds` is empty the Python
`max` raises `ValueError` — the sample points (none, in that case) have
already been drawn, so the drawn state is returned alongside the error. -/
def plot_sample (d : Diagram) (ref : Series) (samples : List Series)
    (cfg : Config) : Diagram × Except String Unit :=
  let pts := samplePoints d.refstdRaw cfg.Normalize ref samples cfg.markers cfg.colors
  let stds := pts.map Point.r
  let res := pymax stds
  ({ d with
      points := d.points ++ pts
      events := d.events ++ pts.map (fun p => .plotPoint p.label) ++
        (match res with | .ok _ => [Event.setXlim] | .error _ => [])
      xmax := (match res with | .ok m => m | .error _ => d.xmax) },
    res.map (fun _ => ()))

/-- Constructor `TaylorDiagram.__init__` (lines 33–73) after storing the configuration:
`self.step_up(ax)` then `self.plot_sample()`.  Returns the built state and
whether construction completed (`.ok`) or raised (`.error`); on error the
state still records everything drawn before the failure, matching the
canvas contents when `__init__` raises. -/
def taylorConstruct (ref : Series) (samples : List Series) (cfg : Config) :
    Diagram × Except String Unit :=
  plot_sample (step_up ref samples cfg) ref samples cfg

/-- Written from the spec's words (§3) for comparison with the code's
`stdmax`: `max(std(reference), std(sample_1), …, std(sample_n))`, folded
from the reference's std through the sample stds. -/
def specStdMax (ref : Series) (samples : List Series) : ℝ :=
  (samples.map (fun s => std s.data)).foldl max (std ref.data)

end

/-! ### Helper lemmas about the list combinators used by the embedding -/

theorem foldl_max_exchange (l : List ℝ) (a b : ℝ) :
    l.foldl max (max a b) = max a (l.foldl max b) := by
  induction l generalizing b with
  | nil => simp
  | cons x xs ih =>
    simp only [List.foldl_cons]
    rw [max_assoc]
    exact ih (max b x)

theorem le_foldl_max_init (l : List ℝ) (b : ℝ) : b ≤ l.foldl max b := by
  induction l generalizing b with
  | nil => exact le_refl b
  | cons x xs ih =>
    simp only [List.foldl_cons]
    exact le_trans (le_max_left b x) (ih (max b x))

theorem mem_le_foldl_max (l : List ℝ) : ∀ (b x : ℝ), x ∈ l → x ≤ l.foldl max b := by
  induction l with
  | nil => intro b x hx; cases hx
  | cons y ys ih =>
    intro b x hx
    simp only [List.foldl_cons]
    rcases List.mem_cons.mp hx with h | h
    · subst h
      exact le_trans (le_max_right b x) (le_foldl_max_init ys (max b x))
    · exact ih (max b y) x h

theorem le_pymaxD (l : List ℝ) (x : ℝ) (hx : x ∈ l) : x ≤ pymaxD l := by
  cases l with
  | nil => cases hx
  | cons y ys =>
    rcases List.mem_cons.mp hx with h | h
    · subst h
      exact le_foldl_max_init ys x
    · exact mem_le_foldl_max ys y x h

theorem pymaxD_append_singleton (l : List ℝ) (a : ℝ) :
    pymaxD (l ++ [a]) = l.foldl max a := by
  cases l with
  | nil => rfl
  | cons x xs =>
    show (xs ++ [a]).foldl max x = (x :: xs).foldl max a
    rw [List.foldl_append]
    simp only [List.foldl_cons, List.foldl_nil]
    rw [foldl_max_exchange xs a x]
    exact max_comm _ _

theorem zip3_nil_left {α β γ : Type} (bs : List β) (cs : List γ) :
    zip3 ([] : List α) bs cs = [] := by
  cases bs <;> cases cs <;> rfl

theorem zip3_nil_mid {α β γ : Type} (as : List α) (cs : List γ) :
    zip3 as ([] : List β) cs = [] := by
  cases as <;> cases cs <;> rfl

theorem zip3_nil_right {α β γ : Type} (as : List α) (bs : List β) :
    zip3 as bs ([] : List γ) = [] := by
  cases as <;> cases bs <;> rfl

theorem zip3_length {α β γ : Type} (as : List α) :
    ∀ (bs : List β) (cs : List γ),
    (zip3 as bs cs).length = min as.length (min bs.length cs.length) := by
  induction as with
  | nil => intro bs cs; rw [zip3_nil_left]; simp
  | cons a as ih =>
    intro bs cs
    cases bs with
    | nil => rw [zip3_nil_mid]; simp
    | cons b bs =>
      cases cs with
      | nil => rw [zip3_nil_right]; simp
      | cons c cs =>
        simp only [zip3, List.length_cons, ih bs cs]
        omega

theorem zip3_map_fst {α β γ : Type} (as : List α) :
    ∀ (bs : List β) (cs : List γ), as.length ≤ bs.length → as.length ≤ cs.length →
    (zip3 as bs cs).map (fun q => q.1) = as := by
  induction as with
  | nil => intro bs cs _ _; rw [zip3_nil_left]; rfl
  | cons a as ih =>
    intro bs cs h1 h2
    cases bs with
    | nil => simp at h1
    | cons b bs =>
      cases cs with
      | nil => simp at h2
      | cons c cs =>
        simp only [zip3, List.map_cons]
        rw [ih bs cs (by simp only [List.length_cons] at h1; omega)
          (by simp only [List.length_cons] at h2; omega)]

theorem zip3_map_snd1 {α β γ : Type} (as : List α) :
    ∀ (bs : List β) (cs : List γ), as.length ≤ bs.length → as.length ≤ cs.length →
    (zip3 as bs cs).map (fun q => q.2.1) = bs.take as.length := by
  induction as with
  | nil => intro bs cs _ _; rw [zip3_nil_left]; rfl
  | cons a as ih =>
    intro bs cs h1 h2
    cases bs with
    | nil => simp at h1
    | cons b bs =>
      cases cs with
      | nil => simp at h2
      | cons c cs =>
        simp only [zip3, List.map_cons, List.length_cons, List.take_succ_cons]
        rw [ih bs cs (by simp only [List.length_cons] at h1; omega)
          (by simp only [List.length_cons] at h2; omega)]

theorem zip3_map_snd2 {α β γ : Type} (as : List α) :
    ∀ (bs : List β) (cs : List γ), as.length ≤ bs.length → as.length ≤ cs.length →
    (zip3 as bs cs).map (fun q => q.2.2) = cs.take as.length := by
  induction as with
  | nil => intro bs cs _ _; rw [zip3_nil_left]; rfl
  | cons a as ih =>
    intro bs cs h1 h2
    cases bs with
    | nil => simp at h1
    | cons b bs =>
      cases cs with
      | nil => simp at h2
      | cons c cs =>
        simp only [zip3, List.map_cons, List.length_cons, List.take_succ_cons]
        rw [ih bs cs (by simp only [List.length_cons] at h1; omega)
          (by simp only [List.length_cons] at h2; omega)]

theorem defaultMarkers_length : defaultMarkers.length = 700 := by
  rw [defaultMarkers, List.length_flatten, List.map_replicate, List.sum_replicate]
  norm_num

theorem defaultColors_length : defaultColors.length = 12 := rfl

theorem linspace_length (a b : ℝ) (n : ℕ) : (linspace a b n).length = n := by
  simp only [linspace, List.length_map, List.length_range]

theorem linspace_getElem (a b : ℝ) (n i : ℕ) (h : i < n) :
    (linspace a b n)[i]? = some (a + (i : ℝ) * (b - a) / ((n : ℝ) - 1)) := by
  simp only [linspace, List.getElem?_map, List.getElem?_range, h, if_pos]
  rfl

theorem linspace_four (S : ℝ) : linspace 0 S 4 = [0, S / 3, 2 * S / 3, S] := by
  simp only [linspace, show List.range 4 = [0, 1, 2, 3] from rfl,
    List.map_cons, List.map_nil]
  norm_num

theorem samplePoints_length (rs : ℝ) (N : Bool) (ref : Series)
    (samples : List Series) (ms cs : List String) :
    (samplePoints rs N ref samples ms cs).length =
      min samples.length (min (ms.length - 1) (cs.length - 1)) := by
  rw [samplePoints, List.length_map, zip3_length, List.length_drop, List.length_drop]

theorem construct_points_eq (ref : Series) (samples : List Series) (cfg : Config) :
    (taylorConstruct ref samples cfg).1.points =
      (step_up ref samples cfg).points ++
        samplePoints (step_up ref samples cfg).refstdRaw cfg.Normalize ref samples
          cfg.markers cfg.colors := rfl

theorem construct_status_eq (ref : Series) (samples : List Series) (cfg : Config) :
    (taylorConstruct ref samples cfg).2 =
      (pymax ((samplePoints (step_up ref samples cfg).refstdRaw cfg.Normalize ref
        samples cfg.markers cfg.colors).map Point.r)).map (fun _ => ()) := rfl

theorem construct_points_length (ref : Series) (samples : List Series) (cfg : Config) :
    (taylorConstruct ref samples cfg).1.points.length =
      1 + min samples.length (min (cfg.markers.length - 1) (cfg.colors.length - 1)) := by
  rw [construct_points_eq, List.length_append, samplePoints_length]
  rfl

theorem construct_ok_of_min_pos (ref : Series) (samples : List Series) (cfg : Config)
    (h : 0 < min samples.length (min (cfg.markers.length - 1) (cfg.colors.length - 1))) :
    (taylorConstruct ref samples cfg).2 = .ok () := by
  rw [construct_status_eq]
  cases hp : (samplePoints (step_up ref samples cfg).refstdRaw cfg.Normalize ref
      samples cfg.markers cfg.colors).map Point.r with
  | nil =>
    exfalso
    have hl := samplePoints_length (step_up ref samples cfg).refstdRaw cfg.Normalize
      ref samples cfg.markers cfg.colors
    rw [← List.length_map _ Point.r, hp] at hl
    simp only [List.length_nil] at hl
    omega
  | cons x xs => rfl

theorem construct_error_of_min_eq_zero (ref : Series) (samples : List Series)
    (cfg : Config)
    (h : min samples.length (min (cfg.markers.length - 1) (cfg.colors.length - 1)) = 0) :
    (taylorConstruct ref samples cfg).2 = .error "max() arg is an empty sequence" := by
  rw [construct_status_eq]
  have hnil : samplePoints (step_up ref samples cfg).refstdRaw cfg.Normalize ref
      samples cfg.markers cfg.colors = [] := by
    apply List.eq_nil_of_length_eq_zero
    rw [samplePoints_length, h]
  rw [hnil]
  rfl

theorem construct_events_take_four (ref : Series) (samples : List Series)
    (cfg : Config) :
    (taylorConstruct ref samples cfg).1.events.take 4 =
      [Event.axisFrame, Event.refArc, Event.contourPlot, Event.plotPoint ref.name] := rfl

theorem zip3_map_fst_f {α β γ δ : Type} (f : α → δ) (as : List α) (bs : List β)
    (cs : List γ) (h1 : as.length ≤ bs.length) (h2 : as.length ≤ cs.length) :
    (zip3 as bs cs).map (fun q => f q.1) = as.map f := by
  rw [show (fun q : α × β × γ => f q.1) = f ∘ (fun q => q.1) from rfl,
    ← List.map_map, zip3_map_fst as bs cs h1 h2]

/-! ### Claim theorems -/

/-- Claim C1: for every reference/sample pair, `calc_loc` returns
`angle = arccos(pearson reference sample)` and
`radius = std(sample)/std(reference)` if `Normalize` else `std(sample)`;
in particular correlation `1` gives angle `0` and correlation `0` gives
angle `π/2`.  (`calc_loc` divides by `self._refstd`, which `step_up` sets
to `self.ref.std()`, so the theorem instantiates `refstd` at `std x`.) -/
theorem calc_loc_spec (N : Bool) (x y : List ℝ) :
    calc_loc (std x) N x y =
      (Real.arccos (pearson x y), if N then std y / std x else std y)
    ∧ (pearson x y = 1 → (calc_loc (std x) N x y).1 = 0)
    ∧ (pearson x y = 0 → (calc_loc (std x) N x y).1 = Real.pi / 2) := by
  refine ⟨rfl, fun h => ?_, fun h => ?_⟩
  · show Real.arccos (pearson x y) = 0
    rw [h, Real.arccos_one]
  · show Real.arccos (pearson x y) = Real.pi / 2
    rw [h, Real.arccos_zero]

/-- Witness for C1 at the concrete pair `x = y = [0, 2]`, whose Pearson
correlation is `1`; the angle evaluates to `0`. -/
theorem calc_loc_spec_witness :
    pearson [(0 : ℝ), 2] [(0 : ℝ), 2] = 1
    ∧ (calc_loc (std [(0 : ℝ), 2]) false [0, 2] [0, 2]).1 = 0 := by
  have hp : pearson [(0 : ℝ), 2] [(0 : ℝ), 2] = 1 := by
    simp only [pearson, mean, List.zip_cons_cons, List.zip_nil_right,
      List.map_cons, List.map_nil, List.sum_cons, List.sum_nil, List.length_cons,
      List.length_nil]
    norm_num
  exact ⟨hp, (calc_loc_spec false [0, 2] [0, 2]).2.1 hp⟩

/-- Claim C2 (amended): when there is at least one sample and the marker
and color palettes each have at least `n + 1` entries, construction
succeeds and the ordered point list has exactly `n + 1` elements: the
reference point first, labeled with the reference's name, then one point
per sample in order, labeled with its name, sample `i` (0-indexed) using
`marker[i+1]` and `color[i+1]` — i.e. the marker/color lists of the points
are exactly `markers.take (n+1)` / `colors.take (n+1)`.  (As stated, for
*every* input, the claim fails: the `zip` in `plot_sample` silently
truncates when the palettes are shorter — see the counterexample — and
with zero samples construction raises before any sample point exists.) -/
theorem point_list_spec (ref : Series) (samples : List Series) (cfg : Config)
    (h0 : samples ≠ [])
    (h1 : samples.length + 1 ≤ cfg.markers.length)
    (h2 : samples.length + 1 ≤ cfg.colors.length) :
    (taylorConstruct ref samples cfg).2 = .ok ()
    ∧ (taylorConstruct ref samples cfg).1.points.length = samples.length + 1
    ∧ (taylorConstruct ref samples cfg).1.points.map Point.label =
        ref.name :: samples.map Series.name
    ∧ (taylorConstruct ref samples cfg).1.points.map Point.marker =
        cfg.markers.take (samples.length + 1)
    ∧ (taylorConstruct ref samples cfg).1.points.map Point.color =
        cfg.colors.take (samples.length + 1) := by
  have hn : 0 < samples.length := List.length_pos.mpr h0
  have hm1 : samples.length ≤ (cfg.markers.drop 1).length := by
    rw [List.length_drop]; omega
  have hc1 : samples.length ≤ (cfg.colors.drop 1).length := by
    rw [List.length_drop]; omega
  obtain ⟨m0, ms, hM⟩ : ∃ m0 ms, cfg.markers = m0 :: ms := by
    cases hM : cfg.markers with
    | nil => rw [hM] at h1; simp at h1
    | cons a l => exact ⟨a, l, rfl⟩
  obtain ⟨c0, cs, hC⟩ : ∃ c0 cs, cfg.colors = c0 :: cs := by
    cases hC : cfg.colors with
    | nil => rw [hC] at h2; simp at h2
    | cons a l => exact ⟨a, l, rfl⟩
  have hlab : (samplePoints (step_up ref samples cfg).refstdRaw cfg.Normalize ref
      samples cfg.markers cfg.colors).map Point.label = samples.map Series.name := by
    rw [samplePoints, List.map_map]
    exact zip3_map_fst_f (fun s : Series => s.name) samples _ _ hm1 hc1
  have hmk : (samplePoints (step_up ref samples cfg).refstdRaw cfg.Normalize ref
      samples cfg.markers cfg.colors).map Point.marker =
      (cfg.markers.drop 1).take samples.length := by
    rw [samplePoints, List.map_map]
    exact zip3_map_snd1 samples _ _ hm1 hc1
  have hcl : (samplePoints (step_up ref samples cfg).refstdRaw cfg.Normalize ref
      samples cfg.markers cfg.colors).map Point.color =
      (cfg.colors.drop 1).take samples.length := by
    rw [samplePoints, List.map_map]
    exact zip3_map_snd2 samples _ _ hm1 hc1
  refine ⟨?_, ?_, ?_, ?_, ?_⟩
  · apply construct_ok_of_min_pos
    rw [List.length_drop] at hm1 hc1
    omega
  · rw [construct_points_length]
    have : min samples.length
        (min (cfg.markers.length - 1) (cfg.colors.length - 1)) = samples.length := by
      rw [List.length_drop] at hm1 hc1
      omega
    omega
  · rw [construct_points_eq, List.map_append, hlab,
      show (step_up ref samples cfg).points.map Point.label = [ref.name] from rfl]
    rfl
  · rw [construct_points_eq, List.map_append, hmk,
      show (step_up ref samples cfg).points.map Point.marker =
        [cfg.markers.getD 0 ""] from rfl]
    rw [hM]
    simp [List.take_succ_cons]
  · rw [construct_points_eq, List.map_append, hcl,
      show (step_up ref samples cfg).points.map Point.color =
        [cfg.colors.getD 0 ""] from rfl]
    rw [hC]
    simp [List.take_succ_cons]

/-- Witness for the amended C2 at one sample and two-entry palettes. -/
theorem point_list_spec_witness :
    (taylorConstruct ⟨"r", [0, 1]⟩ [⟨"a", [0, 1]⟩]
        { Normalize := false, markers := ["o", "s"], colors := ["b", "g"],
          scale := 1.2, ms := 10 }).2 = .ok ()
    ∧ (taylorConstruct ⟨"r", [0, 1]⟩ [⟨"a", [0, 1]⟩]
        { Normalize := false, markers := ["o", "s"], colors := ["b", "g"],
          scale := 1.2, ms := 10 }).1.points.length = 2
    ∧ (taylorConstruct ⟨"r", [0, 1]⟩ [⟨"a", [0, 1]⟩]
        { Normalize := false, markers := ["o", "s"], colors := ["b", "g"],
          scale := 1.2, ms := 10 }).1.points.map Point.label = ["r", "a"]
    ∧ (taylorConstruct ⟨"r", [0, 1]⟩ [⟨"a", [0, 1]⟩]
        { Normalize := false, markers := ["o", "s"], colors := ["b", "g"],
          scale := 1.2, ms := 10 }).1.points.map Point.marker = ["o", "s"]
    ∧ (taylorConstruct ⟨"r", [0, 1]⟩ [⟨"a", [0, 1]⟩]
        { Normalize := false, markers := ["o", "s"], colors := ["b", "g"],
          scale := 1.2, ms := 10 }).1.points.map Point.color = ["b", "g"] := by
  exact point_list_spec ⟨"r", [0, 1]⟩ [⟨"a", [0, 1]⟩]
    { Normalize := false, markers := ["o", "s"], colors := ["b", "g"],
      scale := 1.2, ms := 10 }
    (List.cons_ne_nil _ _) (by decide) (by decide)

/-- Counterexample to C2 as stated: with the default palettes (700 markers
but only 12 colors) and `n = 12` samples, the point list has `12` elements,
not `n + 1 = 13` — the twelfth sample is silently dropped by the `zip`. -/
theorem point_list_spec_cex :
    (taylorConstruct ⟨"r", [0, 1]⟩
        [⟨"s1", [0, 1]⟩, ⟨"s2", [0, 1]⟩, ⟨"s3", [0, 1]⟩, ⟨"s4", [0, 1]⟩,
         ⟨"s5", [0, 1]⟩, ⟨"s6", [0, 1]⟩, ⟨"s7", [0, 1]⟩, ⟨"s8", [0, 1]⟩,
         ⟨"s9", [0, 1]⟩, ⟨"s10", [0, 1]⟩, ⟨"s11", [0, 1]⟩, ⟨"s12", [0, 1]⟩]
        defaultConfig).1.points.length ≠
      ([⟨"s1", [0, 1]⟩, ⟨"s2", [0, 1]⟩, ⟨"s3", [0, 1]⟩, ⟨"s4", [0, 1]⟩,
        ⟨"s5", [0, 1]⟩, ⟨"s6", [0, 1]⟩, ⟨"s7", [0, 1]⟩, ⟨"s8", [0, 1]⟩,
        ⟨"s9", [0, 1]⟩, ⟨"s10", [0, 1]⟩, ⟨"s11", [0, 1]⟩,
        ⟨"s12", [0, 1]⟩] : List Series).length + 1 := by
  rw [construct_points_length,
    show defaultConfig.markers.length = 700 from defaultMarkers_length,
    show defaultConfig.colors.length = 12 from rfl]
  simp

/-- Claim C4 (amended): when `Normalize` is false and `scale ≥ 0`, the
radial domain bound satisfies `Smax ≥ scale × std(reference)` and
`Smax ≥ scale × std(sample)` for every sample.  (As stated the claim also
covered the normalized case and arbitrary configurations, where it fails;
see the counterexample.) -/
theorem radius_max_ge (ref : Series) (samples : List Series) (cfg : Config)
    (hN : cfg.Normalize = false) (hs : 0 ≤ cfg.scale) :
    cfg.scale * std ref.data ≤ (step_up ref samples cfg).Smax
    ∧ ∀ s ∈ samples, cfg.scale * std s.data ≤ (step_up ref samples cfg).Smax := by
  have hSmax : (step_up ref samples cfg).Smax =
      pymaxD ((samples.map (fun s => std s.data)) ++ [std ref.data]) * cfg.scale := by
    simp [step_up, hN]
  constructor
  · rw [hSmax, mul_comm]
    exact mul_le_mul_of_nonneg_right (le_pymaxD _ _ (by simp)) hs
  · intro s hmem
    rw [hSmax, mul_comm]
    refine mul_le_mul_of_nonneg_right (le_pymaxD _ _ ?_) hs
    exact List.mem_append_left _ (List.mem_map_of_mem _ hmem)

/-- Witness for the amended C4 at a concrete non-normalized input. -/
theorem radius_max_ge_witness :
    defaultConfig.scale * std [(0 : ℝ), 2] ≤
      (step_up ⟨"r", [0, 2]⟩ [⟨"s", [0, 0]⟩] defaultConfig).Smax := by
  exact (radius_max_ge ⟨"r", [0, 2]⟩ [⟨"s", [0, 0]⟩] defaultConfig rfl
    (by norm_num [defaultConfig])).1

/-- Counterexample to C4 as stated ("for every input and configuration"):
with `Normalize = true` and reference `[1,2,3,4,5]` (std `= √2.5 > 1`),
`Smax = scale × 1 = 1.2 < scale × std(reference)`; and with a negative
`scale` the inequality against a sample's std also fails. -/
theorem radius_max_ge_cex :
    ((step_up ⟨"ref", [1, 2, 3, 4, 5]⟩ [⟨"a", [1, 2, 3, 4, 5]⟩]
        { Normalize := true, markers := defaultMarkers, colors := defaultColors,
          scale := 1.2, ms := 10 }).Smax <
      1.2 * std [(1 : ℝ), 2, 3, 4, 5])
    ∧ ((step_up ⟨"r", [0, 2]⟩ [⟨"s", [0, 0]⟩]
        { Normalize := false, markers := defaultMarkers, colors := defaultColors,
          scale := -1, ms := 10 }).Smax <
      (-1 : ℝ) * std [(0 : ℝ), 0]) := by
  constructor
  · have hstd : std [(1 : ℝ), 2, 3, 4, 5] = Real.sqrt (5 / 2) := by
      simp only [std, mean, List.map_cons, List.map_nil, List.sum_cons,
        List.sum_nil, List.length_cons, List.length_nil]
      norm_num
    have hS : (step_up ⟨"ref", [1, 2, 3, 4, 5]⟩ [⟨"a", [1, 2, 3, 4, 5]⟩]
        { Normalize := true, markers := defaultMarkers, colors := defaultColors,
          scale := 1.2, ms := 10 }).Smax = 1.2 := by
      simp [step_up]
    rw [hS, hstd]
    have h1 : (1 : ℝ) < Real.sqrt (5 / 2) := by
      calc (1 : ℝ) = Real.sqrt 1 := Real.sqrt_one.symm
        _ < Real.sqrt (5 / 2) := Real.sqrt_lt_sqrt (by norm_num) (by norm_num)
    linarith [mul_lt_mul_of_pos_left h1 (show (0 : ℝ) < 1.2 by norm_num)]
  · have hs0 : std [(0 : ℝ), 0] = 0 := by
      simp [std, mean]
    have hsr : std [(0 : ℝ), 2] = Real.sqrt 2 := by
      simp only [std, mean, List.map_cons, List.map_nil, List.sum_cons,
        List.sum_nil, List.length_cons, List.length_nil]
      norm_num
    have hS : (step_up ⟨"r", [0, 2]⟩ [⟨"s", [0, 0]⟩]
        { Normalize := false, markers := defaultMarkers, colors := defaultColors,
          scale := -1, ms := 10 }).Smax = -Real.sqrt 2 := by
      simp only [step_up, pymaxD, List.map_cons, List.map_nil, List.cons_append,
        List.nil_append, List.foldl_cons, List.foldl_nil, hs0, hsr]
      rw [max_eq_right (Real.sqrt_nonneg 2)]
      norm_num
    rw [hS, hs0]
    have : (0 : ℝ) < Real.sqrt 2 := Real.sqrt_pos.mpr (by norm_num)
    linarith

/-- Claim C3 (amended): construction performs no validation of the input
series.  For every input — including an empty reference, empty sample
series, or a length mismatch — the frame, the reference arc, the contours
and the reference point are always drawn first (the events trace always
starts with those four actions), and the only runtime failure of
construction is the `max()` call on an empty list, which depends solely on
the number of zipped samples (`min(len(samples), len(markers)-1,
len(colors)-1) = 0`), never on the series contents or lengths.  In
particular no `InvalidInput` error is raised before drawing begins. -/
theorem no_input_validation (ref : Series) (samples : List Series) (cfg : Config) :
    (taylorConstruct ref samples cfg).1.events.take 4 =
      [Event.axisFrame, Event.refArc, Event.contourPlot, Event.plotPoint ref.name]
    ∧ ((∃ e, (taylorConstruct ref samples cfg).2 = Except.error e) ↔
        min samples.length (min (cfg.markers.length - 1) (cfg.colors.length - 1)) = 0) := by
  refine ⟨construct_events_take_four ref samples cfg, ?_, ?_⟩
  · rintro ⟨e, he⟩
    by_contra hne
    rw [construct_ok_of_min_pos ref samples cfg (Nat.pos_of_ne_zero hne)] at he
    cases he
  · intro h0
    exact ⟨_, construct_error_of_min_eq_zero ref samples cfg h0⟩

/-- Counterexample to C3 as stated: the reference `[1,2,3,4,5]` and the
sample `[1,2,3]` have mismatched lengths, yet construction does not fail
with `InvalidInput` — it completes successfully (pandas aligns the series
on their shared index positions) and the diagram is fully drawn. -/
theorem no_input_validation_cex :
    (taylorConstruct ⟨"r", [1, 2, 3, 4, 5]⟩ [⟨"s", [1, 2, 3]⟩]
        defaultConfig).2 = .ok ()
    ∧ (taylorConstruct ⟨"r", [1, 2, 3, 4, 5]⟩ [⟨"s", [1, 2, 3]⟩]
        defaultConfig).1.events.take 4 =
      [Event.axisFrame, Event.refArc, Event.contourPlot, Event.plotPoint "r"] := by
  constructor
  · apply construct_ok_of_min_pos
    rw [show defaultConfig.markers.length = 700 from defaultMarkers_length,
      show defaultConfig.colors.length = 12 from rfl]
    simp
  · exact construct_events_take_four _ _ _

/-- Claim C9: when the number of samples exceeds
`min(len(markers), len(colors)) − 1`, `plot_sample` iterates only over the
zipped (shorter) palette tails: exactly
`min(len(markers)-1, len(colors)-1)` sample points are rendered, the
excess samples are skipped silently (construction still succeeds, no error
is reported, as long as at least one sample is plotted), and with the
default palettes — 700 markers, 12 colors — at most 11 sample points are
ever rendered. -/
theorem palette_truncation (ref : Series) (samples : List Series) (cfg : Config)
    (h : min (cfg.markers.length - 1) (cfg.colors.length - 1) < samples.length) :
    (taylorConstruct ref samples cfg).1.points.length - 1 =
      min (cfg.markers.length - 1) (cfg.colors.length - 1)
    ∧ (0 < min (cfg.markers.length - 1) (cfg.colors.length - 1) →
        (taylorConstruct ref samples cfg).2 = .ok ())
    ∧ defaultMarkers.length = 700
    ∧ defaultColors.length = 12
    ∧ (cfg.markers = defaultMarkers → cfg.colors = defaultColors →
        (taylorConstruct ref samples cfg).1.points.length - 1 ≤ 11) := by
  have hlen := construct_points_length ref samples cfg
  refine ⟨by omega, ?_, defaultMarkers_length, defaultColors_length, ?_⟩
  · intro hpos
    exact construct_ok_of_min_pos ref samples cfg (by omega)
  · intro hm hc
    rw [hm, hc, defaultMarkers_length] at hlen
    simp only [defaultColors_length] at hlen
    omega

/-- Witness for C9: twelve samples against the default palettes; the point
list has `12` elements (reference plus `11` samples), within the `≤ 11`
bound, and construction still succeeds. -/
theorem palette_truncation_witness :
    (taylorConstruct ⟨"r", [0, 1]⟩
        [⟨"s1", [0, 1]⟩, ⟨"s2", [0, 1]⟩, ⟨"s3", [0, 1]⟩, ⟨"s4", [0, 1]⟩,
         ⟨"s5", [0, 1]⟩, ⟨"s6", [0, 1]⟩, ⟨"s7", [0, 1]⟩, ⟨"s8", [0, 1]⟩,
         ⟨"s9", [0, 1]⟩, ⟨"s10", [0, 1]⟩, ⟨"s11", [0, 1]⟩, ⟨"s12", [0, 1]⟩]
        defaultConfig).1.points.length - 1 =
      min (defaultConfig.markers.length - 1) (defaultConfig.colors.length - 1)
    ∧ (taylorConstruct ⟨"r", [0, 1]⟩
        [⟨"s1", [0, 1]⟩, ⟨"s2", [0, 1]⟩, ⟨"s3", [0, 1]⟩, ⟨"s4", [0, 1]⟩,
         ⟨"s5", [0, 1]⟩, ⟨"s6", [0, 1]⟩, ⟨"s7", [0, 1]⟩, ⟨"s8", [0, 1]⟩,
         ⟨"s9", [0, 1]⟩, ⟨"s10", [0, 1]⟩, ⟨"s11", [0, 1]⟩, ⟨"s12", [0, 1]⟩]
        defaultConfig).2 = .ok ()
    ∧ (taylorConstruct ⟨"r", [0, 1]⟩
        [⟨"s1", [0, 1]⟩, ⟨"s2", [0, 1]⟩, ⟨"s3", [0, 1]⟩, ⟨"s4", [0, 1]⟩,
         ⟨"s5", [0, 1]⟩, ⟨"s6", [0, 1]⟩, ⟨"s7", [0, 1]⟩, ⟨"s8", [0, 1]⟩,
         ⟨"s9", [0, 1]⟩, ⟨"s10", [0, 1]⟩, ⟨"s11", [0, 1]⟩, ⟨"s12", [0, 1]⟩]
        defaultConfig).1.points.length - 1 ≤ 11 := by
  have hmin : min (defaultConfig.markers.length - 1) (defaultConfig.colors.length - 1) <
      ([⟨"s1", [0, 1]⟩, ⟨"s2", [0, 1]⟩, ⟨"s3", [0, 1]⟩, ⟨"s4", [0, 1]⟩,
        ⟨"s5", [0, 1]⟩, ⟨"s6", [0, 1]⟩, ⟨"s7", [0, 1]⟩, ⟨"s8", [0, 1]⟩,
        ⟨"s9", [0, 1]⟩, ⟨"s10", [0, 1]⟩, ⟨"s11", [0, 1]⟩,
        ⟨"s12", [0, 1]⟩] : List Series).length := by
    rw [show defaultConfig.markers.length = 700 from defaultMarkers_length,
      show defaultConfig.colors.length = 12 from rfl]
    simp
  obtain ⟨a, b, _, _, c⟩ := palette_truncation ⟨"r", [0, 1]⟩
    [⟨"s1", [0, 1]⟩, ⟨"s2", [0, 1]⟩, ⟨"s3", [0, 1]⟩, ⟨"s4", [0, 1]⟩,
     ⟨"s5", [0, 1]⟩, ⟨"s6", [0, 1]⟩, ⟨"s7", [0, 1]⟩, ⟨"s8", [0, 1]⟩,
     ⟨"s9", [0, 1]⟩, ⟨"s10", [0, 1]⟩, ⟨"s11", [0, 1]⟩, ⟨"s12", [0, 1]⟩]
    defaultConfig hmin
  refine ⟨a, b ?_, c rfl rfl⟩
  rw [show defaultConfig.markers.length = 700 from defaultMarkers_length,
    show defaultConfig.colors.length = 12 from rfl]
  simp

/-- Claim C10: with an empty `SampleCollection`, construction raises
(Python `max([])` in `plot_sample`, a `ValueError`) — but only after the
frame, the reference arc, the RMS contours and the reference point have
already been drawn, leaving a partially rendered diagram: the events trace
at the moment of failure is exactly those four drawing actions, and the
point list holds the reference point alone. -/
theorem empty_samples_draw_then_error (ref : Series) (cfg : Config) :
    (∃ e, (taylorConstruct ref [] cfg).2 = Except.error e)
    ∧ (taylorConstruct ref [] cfg).1.events =
        [Event.axisFrame, Event.refArc, Event.contourPlot, Event.plotPoint ref.name]
    ∧ (taylorConstruct ref [] cfg).1.points.map Point.label = [ref.name] := by
  have hpts : samplePoints (step_up ref ([] : List Series) cfg).refstdRaw
      cfg.Normalize ref [] cfg.markers cfg.colors = [] := by
    rw [samplePoints, zip3_nil_left]
    rfl
  refine ⟨⟨"max() arg is an empty sequence",
    construct_error_of_min_eq_zero ref [] cfg (by simp)⟩, ?_, ?_⟩
  · show ((step_up ref ([] : List Series) cfg).events ++ _ ++ _) = _
    rw [hpts]
    have : pymax (List.map Point.r []) = .error "max() arg is an empty sequence" := rfl
    rw [this]
    simp only [List.map_nil, List.append_nil]
    rfl
  · rw [construct_points_eq, hpts, List.append_nil]
    rfl

/-- Claim C5: the radial domain bound `Smax` equals
`scale × max(std(reference), std(sample_1), …, std(sample_n))` when
`Normalize` is false, and `scale × 1.0` when `Normalize` is true. -/
theorem radius_max_eq (ref : Series) (samples : List Series) (cfg : Config) :
    (step_up ref samples cfg).Smax =
      cfg.scale * (if cfg.Normalize then 1 else specStdMax ref samples) := by
  cases hN : cfg.Normalize with
  | true => simp [step_up, hN, mul_comm]
  | false =>
    simp only [step_up, hN, if_false, Bool.false_eq_true]
    rw [pymaxD_append_singleton, mul_comm]
    rfl

/-- Claim C6: the reference point is placed as a fixed special case at
exactly `angle = 0` and `radius = 1.0` if `Normalize` else
`std(reference)`, with `markers[0]` and `colors[0]` and the reference's
name as label; it is the head of the point list of the full construction.
The equation holds literally for every input — including inputs where
`arccos(pearson ref ref)` would not be `0` — so the placement does not go
through the correlation computation. -/
theorem reference_point_fixed (ref : Series) (samples : List Series) (cfg : Config) :
    (step_up ref samples cfg).points =
      [{ label := ref.name
         theta := 0
         r := if cfg.Normalize then 1 else std ref.data
         marker := cfg.markers.getD 0 ""
         color := cfg.colors.getD 0 "" }]
    ∧ (taylorConstruct ref samples cfg).1.points.head? =
      some { label := ref.name
             theta := 0
             r := if cfg.Normalize then 1 else std ref.data
             marker := cfg.markers.getD 0 ""
             color := cfg.colors.getD 0 "" } := by
  exact ⟨rfl, rfl⟩

/-- Claim C7: the angular axis ticks sit at `arccos c` for exactly the
fixed correlation levels `[0, 0.2, 0.4, 0.6, 0.7, 0.8, 0.9, 0.95, 0.99, 1]`,
the angular formatter pairs each tick `arccos c` with the original
correlation value `c` (rendered by `str` as the label text), and the radial
axis has four evenly spaced ticks `[0, Smax/3, 2·Smax/3, Smax]` from `0` to
`Smax`, the radial formatter pairing each tick with the value rendered to
one decimal place (`"%.1f"`) as its label. -/
theorem axis_ticks (ref : Series) (samples : List Series) (cfg : Config) :
    (step_up ref samples cfg).ThetaTicks = Rlocs.map Real.arccos
    ∧ (step_up ref samples cfg).tf1 = (Rlocs.map Real.arccos).zip Rlocs
    ∧ Rlocs = [0, 0.2, 0.4, 0.6, 0.7, 0.8, 0.9, 0.95, 0.99, 1]
    ∧ (step_up ref samples cfg).Slocs =
        [0, (step_up ref samples cfg).Smax / 3,
         2 * (step_up ref samples cfg).Smax / 3, (step_up ref samples cfg).Smax]
    ∧ (step_up ref samples cfg).Slocs.length = 4
    ∧ (step_up ref samples cfg).tf2 =
        (step_up ref samples cfg).Slocs.zip (step_up ref samples cfg).Slocs := by
  refine ⟨rfl, rfl, rfl, ?_, ?_, rfl⟩
  · exact linspace_four _
  · exact linspace_length _ _ _

/-- Claim C8: the RMS contour field is evaluated on a `100 × 100` regular
grid, with angular nodes `linspace 0 (π/2) 100` (first node `0`, last node
`π/2`) and radial nodes `linspace 0 Smax 100` (first node `0`, last node
`Smax`); the node value is the law-of-cosines expression
`sqrt (refstd² + r² − 2·refstd·r·cos t)`, and at `t = 0`, `r = refstd` it
is exactly `0`.  `refstd` is the reference point's radius, the head of the
point list. -/
theorem rms_field_spec (ref : Series) (samples : List Series) (cfg : Config)
    (t r rs : ℝ) :
    rmsField rs t r = Real.sqrt (rs ^ 2 + r ^ 2 - 2 * rs * r * Real.cos t)
    ∧ rmsField rs 0 rs = 0
    ∧ rmsGridT.length = 100
    ∧ (rmsGridR (step_up ref samples cfg).Smax).length = 100
    ∧ rmsGridT[0]? = some 0
    ∧ rmsGridT[99]? = some (Real.pi / 2)
    ∧ (rmsGridR (step_up ref samples cfg).Smax)[0]? = some 0
    ∧ (rmsGridR (step_up ref samples cfg).Smax)[99]? =
        some (step_up ref samples cfg).Smax
    ∧ (step_up ref samples cfg).points.head?.map Point.r =
        some (step_up ref samples cfg).refstd := by
  refine ⟨rfl, ?_, linspace_length _ _ _, linspace_length _ _ _, ?_, ?_, ?_, ?_, rfl⟩
  · simp only [rmsField, Real.cos_zero, mul_one]
    rw [show rs ^ 2 + rs ^ 2 - 2 * rs * rs = 0 by ring, Real.sqrt_zero]
  · rw [rmsGridT, linspace_getElem 0 (Real.pi / 2) 100 0 (by norm_num)]
    norm_num
  · rw [rmsGridT, linspace_getElem 0 (Real.pi / 2) 100 99 (by norm_num)]
    norm_num
  · rw [rmsGridR, linspace_getElem 0 _ 100 0 (by norm_num)]
    norm_num
  · rw [rmsGridR, linspace_getElem 0 _ 100 99 (by norm_num)]
    norm_num

end Matplotkit
